import Mathlib

/-!
Shallow embedding of the gastown inter-agent mail layer
(`internal/cmd/mail.go` and the `internal/mail` router it uses),
with theorems checking the natural-language specification against it.

Strings are modelled by Lean `String` (a wrapper around `List Char`);
the Go helpers `strings.HasPrefix` and `strings.SplitN(s, "/", 2)` are
embedded as explicit recursive functions on `List Char`.  External
collaborators (the `bd` durable store and the tmux live-session port)
are modelled as oracle inputs: each external call's outcome is a
parameter of the function that performs it, and the side effects the
code performs are returned as an explicit trace.
-/

namespace Gastown

/-- `strings.HasPrefix`: `hasPfx p s` is true iff `p` is a leading
segment of `s`. -/
def hasPfx : List Char → List Char → Bool
  | [], _ => true
  | _ :: _, [] => false
  | p :: ps, c :: cs => p = c && hasPfx ps cs

/-- Split a character list at the first `/`, returning the parts before
and after it, or `none` when no `/` occurs.  `strings.SplitN(s, "/", 2)`
returns `[s]` in the `none` case and the two parts otherwise. -/
def splitFirstSlash : List Char → Option (List Char × List Char)
  | [] => none
  | c :: cs =>
    if c = '/' then some ([], cs)
    else
      match splitFirstSlash cs with
      | none => none
      | some (a, b) => some (c :: a, b)

/-- `addressToSessionID` from `internal/mail`: converts a mail address
to a tmux session ID.  Addresses beginning with `mayor` map to the fixed
session `gt-mayor`; `rig/target` (split at the first `/`, target
non-empty) maps to `gt-rig-target`; anything else maps to `""`. -/
def addressToSessionID (address : String) : String :=
  if hasPfx "mayor".data address.data then "gt-mayor"
  else
    match splitFirstSlash address.data with
    | none => ""
    | some (rig, target) =>
      if target = [] then ""
      else String.mk ("gt-".data ++ rig ++ "-".data ++ target)

theorem hasPfx_append (p rest : List Char) : hasPfx p (p ++ rest) = true := by
  induction p with
  | nil => rfl
  | cons c cs ih => simp [hasPfx, ih]

theorem splitFirstSlash_of_no_slash (s : List Char) (h : '/' ∉ s) :
    splitFirstSlash s = none := by
  induction s with
  | nil => rfl
  | cons c cs ih =>
    simp only [List.mem_cons, not_or] at h
    simp [splitFirstSlash, Ne.symm h.1, ih h.2]

theorem splitFirstSlash_append (rig target : List Char) (h : '/' ∉ rig) :
    splitFirstSlash (rig ++ '/' :: target) = some (rig, target) := by
  induction rig with
  | nil => simp [splitFirstSlash]
  | cons c cs ih =>
    simp only [List.mem_cons, not_or] at h
    simp [splitFirstSlash, Ne.symm h.1, ih h.2]

/-- C4: any address beginning with `mayor` resolves to the fixed session
identity `gt-mayor`; an address of the form `rig/target` with non-empty
`rig` (containing no `/`) and non-empty `target`, not beginning with
`mayor`, resolves to `gt-rig-target`; an address with no separator or an
empty target (and not beginning with `mayor`) resolves to the empty
sentinel. -/
theorem addressToSessionID_spec (addr : String) :
    (hasPfx "mayor".data addr.data = true → addressToSessionID addr = "gt-mayor") ∧
    (∀ rig target : List Char,
      hasPfx "mayor".data addr.data = false →
      addr.data = rig ++ '/' :: target →
      '/' ∉ rig → rig ≠ [] → target ≠ [] →
      addressToSessionID addr = String.mk ("gt-".data ++ rig ++ '-' :: target)) ∧
    (hasPfx "mayor".data addr.data = false → '/' ∉ addr.data →
      addressToSessionID addr = "") ∧
    (∀ rig : List Char,
      hasPfx "mayor".data addr.data = false →
      addr.data = rig ++ ['/'] → '/' ∉ rig →
      addressToSessionID addr = "") := by
  refine ⟨?_, ?_, ?_, ?_⟩
  · intro h
    simp [addressToSessionID, h]
  · intro rig target hm hdata hrig _ htarget
    rw [hdata] at hm
    simp [addressToSessionID, hdata, hm, splitFirstSlash_append rig target hrig, htarget]
  · intro hm hns
    simp [addressToSessionID, hm, splitFirstSlash_of_no_slash addr.data hns]
  · intro rig hm hdata hrig
    have h0 : addr.data = rig ++ '/' :: [] := hdata
    rw [h0] at hm
    simp [addressToSessionID, h0, hm, splitFirstSlash_append rig [] hrig]

/-- Witness for C4 at concrete addresses: `mayor/` and `mayor` resolve
to `gt-mayor`, `gastown/Toast` resolves to `gt-gastown-Toast`, and
`rig/` and `rig` resolve to the empty sentinel. -/
theorem addressToSessionID_spec_witness :
    addressToSessionID "mayor/" = "gt-mayor" ∧
    addressToSessionID "mayor" = "gt-mayor" ∧
    addressToSessionID "gastown/Toast" = "gt-gastown-Toast" ∧
    addressToSessionID "rig/" = "" ∧
    addressToSessionID "rig" = "" := by
  refine ⟨(addressToSessionID_spec "mayor/").1 (by decide),
    (addressToSessionID_spec "mayor").1 (by decide),
    ?_,
    (addressToSessionID_spec "rig/").2.2.2 "rig".data (by decide) rfl (by decide),
    (addressToSessionID_spec "rig").2.2.1 (by decide) (by decide)⟩
  have h := (addressToSessionID_spec "gastown/Toast").2.1 "gastown".data "Toast".data
    (by decide) rfl (by decide) (by decide) (by decide)
  rw [h]
  rfl

/-- The sixteen lowercase hexadecimal digit characters, in value order,
as used by Go's `encoding/hex`. -/
def hexAlphabet : List Char := "0123456789abcdef".data

/-- The lowercase hexadecimal digit character for a value below 16. -/
def hexDigit (n : Nat) : Char := hexAlphabet.getD n '0'

/-- `encoding/hex` encoding of one byte: the high nibble's digit
followed by the low nibble's digit. -/
def byteToHex (b : Fin 256) : List Char := [hexDigit (b.val / 16), hexDigit (b.val % 16)]

/-- `hex.EncodeToString` on a byte slice: each byte becomes two
lowercase hexadecimal characters, in order. -/
def hexEncode : List (Fin 256) → List Char
  | [] => []
  | b :: bs => byteToHex b ++ hexEncode bs

/-- `generateThreadID` from `internal/cmd/mail.go`: reads random bytes
(here passed explicitly, 6 of them in the program) and returns
`"thread-" + hex.EncodeToString(b)`. -/
def generateThreadID (bs : List (Fin 256)) : String :=
  String.mk ("thread-".data ++ hexEncode bs)

theorem hexEncode_length (bs : List (Fin 256)) :
    (hexEncode bs).length = 2 * bs.length := by
  induction bs with
  | nil => rfl
  | cons b t ih =>
    simp [hexEncode, byteToHex, ih]
    ring

theorem hexDigit_mem (n : Nat) (h : n < 16) : hexDigit n ∈ hexAlphabet := by
  interval_cases n <;> decide

theorem hexEncode_mem_alphabet (bs : List (Fin 256)) :
    ∀ c ∈ hexEncode bs, c ∈ hexAlphabet := by
  induction bs with
  | nil => intro c hc; cases hc
  | cons b t ih =>
    intro c hc
    rcases List.mem_append.mp hc with h | h
    · have hlt1 : b.val / 16 < 16 := by omega
      have hlt2 : b.val % 16 < 16 := Nat.mod_lt _ (by omega)
      rcases h with _ | ⟨_, h⟩
      · exact hexDigit_mem _ hlt1
      · rcases h with _ | ⟨_, h⟩
        · exact hexDigit_mem _ hlt2
        · cases h
    · exact ih c h

theorem hexDigit_inj : ∀ x y : Fin 16, hexDigit x.val = hexDigit y.val → x = y := by
  decide

theorem byteToHex_inj (b1 b2 : Fin 256) (h : byteToHex b1 = byteToHex b2) : b1 = b2 := by
  simp only [byteToHex, List.cons.injEq, and_true] at h
  have hd1 : b1.val / 16 < 16 := by omega
  have hd2 : b2.val / 16 < 16 := by omega
  have hm1 : b1.val % 16 < 16 := Nat.mod_lt _ (by omega)
  have hm2 : b2.val % 16 < 16 := Nat.mod_lt _ (by omega)
  have e1 : b1.val / 16 = b2.val / 16 :=
    congrArg Fin.val (hexDigit_inj ⟨_, hd1⟩ ⟨_, hd2⟩ h.1)
  have e2 : b1.val % 16 = b2.val % 16 :=
    congrArg Fin.val (hexDigit_inj ⟨_, hm1⟩ ⟨_, hm2⟩ h.2)
  have : b1.val = b2.val := by omega
  exact Fin.ext this

theorem hexEncode_inj : ∀ bs1 bs2 : List (Fin 256), bs1.length = bs2.length →
    hexEncode bs1 = hexEncode bs2 → bs1 = bs2 := by
  intro bs1
  induction bs1 with
  | nil =>
    intro bs2 hlen _
    exact (List.eq_nil_of_length_eq_zero hlen.symm).symm
  | cons b1 t1 ih =>
    intro bs2 hlen henc
    cases bs2 with
    | nil => cases hlen
    | cons b2 t2 =>
      simp only [hexEncode, byteToHex, List.cons_append, List.nil_append,
        List.cons.injEq] at henc
      have hb : b1 = b2 := byteToHex_inj b1 b2 (by
        simp [byteToHex, henc.1, henc.2.1])
      have ht : t1 = t2 := ih t2 (by simpa using hlen) henc.2.2
      rw [hb, ht]

/-- C8: for 6 random bytes, the generated thread id is `"thread-"`
followed by exactly 12 lowercase hexadecimal characters (total length
19), is non-empty, and distinct byte draws yield distinct ids. -/
theorem generateThreadID_spec (bs : List (Fin 256)) (h : bs.length = 6) :
    hasPfx "thread-".data (generateThreadID bs).data = true ∧
    (generateThreadID bs).length = 19 ∧
    (hexEncode bs).length = 12 ∧
    (∀ c ∈ hexEncode bs, c ∈ hexAlphabet) ∧
    generateThreadID bs ≠ "" ∧
    (∀ bs2 : List (Fin 256), bs2.length = 6 → bs ≠ bs2 →
      generateThreadID bs ≠ generateThreadID bs2) := by
  refine ⟨hasPfx_append _ _, ?_, ?_, hexEncode_mem_alphabet bs, ?_, ?_⟩
  · show ("thread-".data ++ hexEncode bs).length = 19
    simp [hexEncode_length, h]
  · simp [hexEncode_length, h]
  · intro he
    have : ("thread-".data ++ hexEncode bs) = "".data := congrArg String.data he
    simp at this
  · intro bs2 h2 hne he
    have hd : "thread-".data ++ hexEncode bs = "thread-".data ++ hexEncode bs2 :=
      congrArg String.data he
    exact hne (hexEncode_inj bs bs2 (h.trans h2.symm)
      (List.append_cancel_left hd))

/-- Witness for C8 at two concrete byte draws. -/
theorem generateThreadID_spec_witness :
    generateThreadID [0, 0, 0, 0, 0, 0] = "thread-000000000000" ∧
    generateThreadID [255, 1, 2, 3, 4, 5] ≠ generateThreadID [0, 0, 0, 0, 0, 0] := by
  constructor
  · rfl
  · exact (generateThreadID_spec [255, 1, 2, 3, 4, 5] (by decide)).2.2.2.2.2
      [0, 0, 0, 0, 0, 0] (by decide) (by decide)

/-- Message priority (`internal/mail`): low, normal (default), high,
urgent. -/
inductive Priority
  | low
  | normal
  | high
  | urgent
deriving DecidableEq

/-- Message type (`internal/mail`): task, scavenge, notification
(default), reply. -/
inductive MessageType
  | task
  | scavenge
  | notification
  | reply
deriving DecidableEq

/-- Delivery mode (`internal/mail`): queue (default) or interrupt. -/
inductive Delivery
  | queue
  | interrupt
deriving DecidableEq

/-- The `mail.Message` value object.  Go fields `From`, `To`, `Type`
and `Read` are named `mfrom`, `mto`, `mtype` and `mread` here because
`from` is reserved in Lean; all other fields keep their names. -/
structure Message where
  id : String := ""
  mfrom : String := ""
  mto : String := ""
  subject : String := ""
  body : String := ""
  priority : Priority := .normal
  mtype : MessageType := .notification
  delivery : Delivery := .queue
  threadID : String := ""
  replyTo : String := ""
  mread : Bool := false
deriving DecidableEq

/-- Oracle for the tmux live-session port: the outcome of
`HasSession`, of `DisplayMessageDefault` and of `SendKeysRaw` for the
one session the Router may touch during a single `Send`. -/
structure SessionEnv where
  hasSession : Except String Bool
  displayResult : Except String Unit
  sendKeysResult : Except String Unit

/-- Externally visible actions performed by `Router.Send`, in order:
the successful `bd mail send` persist, a status-line notification
(`tmux display-message`), or a raw injection into the session's input
stream (`tmux send-keys` without a terminating Enter). -/
inductive Effect
  | persisted
  | notified (sessionID text : String)
  | injected (sessionID text : String)
deriving DecidableEq

/-- The status-line notification text built by `notifyRecipient`:
`fmt.Sprintf("[MAIL] From %s: %s", msg.From, msg.Subject)`. -/
def notification (msg : Message) : String :=
  "[MAIL] From " ++ msg.mfrom ++ ": " ++ msg.subject

/-- `Router.notifyRecipient`: resolve the recipient's session; skip
silently (no effect, nil error) when the session id is empty, the
presence check errors, or no session is active; otherwise display the
notification, returning the display call's outcome. -/
def Router.notifyRecipient (msg : Message) (env : SessionEnv) :
    Except String Unit × List Effect :=
  let sessionID := addressToSessionID msg.mto
  if sessionID = "" then (.ok (), [])
  else
    match env.hasSession with
    | .error _ => (.ok (), [])
    | .ok false => (.ok (), [])
    | .ok true => (env.displayResult, [.notified sessionID (notification msg)])

/-- The priority annotation used in the interrupt reminder:
`" [URGENT]"` for urgent, `" [HIGH PRIORITY]"` for high, empty
otherwise. -/
def priorityStr (p : Priority) : String :=
  if p = .urgent then " [URGENT]"
  else if p = .high then " [HIGH PRIORITY]"
  else ""

/-- First part of the system-reminder block built by
`interruptRecipient`: tag line with priority annotation and sender,
then the subject line. -/
def reminderHeader (msg : Message) : String :=
  "\n<system-reminder>\n📬 NEW MAIL" ++ priorityStr msg.priority ++
    " from " ++ msg.mfrom ++ "\nSubject: " ++ msg.subject ++ "\n"

/-- Fixed last part of the system-reminder block. -/
def reminderFooter : String :=
  "\nRun 'gt mail inbox' to see your messages.\n</system-reminder>\n"

/-- The system-reminder block built by `interruptRecipient`: the
header; the body framed by blank lines when non-empty; the footer. -/
def reminder (msg : Message) : String :=
  (if msg.body ≠ "" then reminderHeader msg ++ "\n" ++ msg.body ++ "\n"
   else reminderHeader msg) ++ reminderFooter

/-- `Router.interruptRecipient`: resolve the recipient's session; skip
silently when the session id is empty, the presence check errors, or no
session is active; otherwise inject the reminder via raw send-keys
(no Enter), returning that call's outcome. -/
def Router.interruptRecipient (msg : Message) (env : SessionEnv) :
    Except String Unit × List Effect :=
  let sessionID := addressToSessionID msg.mto
  if sessionID = "" then (.ok (), [])
  else
    match env.hasSession with
    | .error _ => (.ok (), [])
    | .ok false => (.ok (), [])
    | .ok true => (env.sendKeysResult, [.injected sessionID (reminder msg)])

/-- Oracle for one `Router.Send`: the outcome of the `bd mail send`
persist call (stderr text on failure) plus the session oracle. -/
structure SendEnv where
  persistResult : Except String Unit
  session : SessionEnv

/-- `Router.Send`: persist the message via `bd mail send`; on failure
return the store's error and do nothing else; on success perform the
delivery-mode side effect (interrupt → inject, queue → notify),
discarding its result, and return success. -/
def Router.Send (msg : Message) (env : SendEnv) : Except String Unit × List Effect :=
  match env.persistResult with
  | .error e => (.error e, [])
  | .ok _ =>
    let side :=
      if msg.delivery = .interrupt then Router.interruptRecipient msg env.session
      else Router.notifyRecipient msg env.session
    (.ok (), .persisted :: side.2)

theorem infix_cat_left (n : String) {l : List Char} {m : String} (h : l <:+: m.data) :
    l <:+: (n ++ m).data := by
  rw [String.data_append]
  exact h.trans ⟨n.data, [], by simp⟩

theorem infix_cat_right (n : String) {l : List Char} {m : String} (h : l <:+: m.data) :
    l <:+: (m ++ n).data := by
  rw [String.data_append]
  exact h.trans ⟨[], n.data, by simp⟩

/-- C1: `Router.Send` fails exactly when the persist call fails (with
the store's error), performs no live-session side effect when
persistence fails, performs the delivery-mode side effect only after a
successful persist, and its result never depends on the session
oracle's outcomes — side-effect failures are swallowed. -/
theorem Send_error_iff_persist_fails (msg : Message) (env : SendEnv) :
    (∀ e, (Router.Send msg env).1 = .error e ↔ env.persistResult = .error e) ∧
    ((Router.Send msg env).1 = .ok () ↔ env.persistResult = .ok ()) ∧
    (∀ e, env.persistResult = .error e → (Router.Send msg env).2 = []) ∧
    (env.persistResult = .ok () →
      (Router.Send msg env).2 = Effect.persisted ::
        (if msg.delivery = .interrupt then (Router.interruptRecipient msg env.session).2
         else (Router.notifyRecipient msg env.session).2)) ∧
    (∀ s1 s2 : SessionEnv,
      (Router.Send msg ⟨env.persistResult, s1⟩).1 =
        (Router.Send msg ⟨env.persistResult, s2⟩).1) := by
  refine ⟨?_, ?_, ?_, ?_, ?_⟩
  · intro e
    cases h : env.persistResult <;> simp [Router.Send, h]
  · cases h : env.persistResult <;> simp [Router.Send, h]
  · intro e he
    simp [Router.Send, he]
  · intro hok
    cases hd : msg.delivery <;> simp [Router.Send, hok, hd]
  · intro s1 s2
    cases h : env.persistResult <;> simp [Router.Send, h]

/-- Witness for C1: a concrete queue-mode message on which the persist
outcome alone decides the result, at a failing persist (error returned,
no effect) and at a successful persist with a failing display call
(success returned, side effect after the persist). -/
theorem Send_error_iff_persist_fails_witness :
    (Router.Send { mto := "gastown/Toast", subject := "S" }
        ⟨.error "store down", ⟨.ok true, .error "tmux broke", .ok ()⟩⟩).1 =
      .error "store down" ∧
    (Router.Send { mto := "gastown/Toast", subject := "S" }
        ⟨.error "store down", ⟨.ok true, .error "tmux broke", .ok ()⟩⟩).2 = [] ∧
    (Router.Send { mto := "gastown/Toast", subject := "S" }
        ⟨.ok (), ⟨.ok true, .error "tmux broke", .ok ()⟩⟩).1 = .ok () ∧
    (Router.Send { mto := "gastown/Toast", subject := "S" }
        ⟨.ok (), ⟨.ok true, .error "tmux broke", .ok ()⟩⟩).2 =
      [Effect.persisted,
        .notified "gt-gastown-Toast" "[MAIL] From : S"] := by
  refine ⟨?_, ?_, ?_, ?_⟩
  · exact (Send_error_iff_persist_fails { mto := "gastown/Toast", subject := "S" }
      ⟨.error "store down", ⟨.ok true, .error "tmux broke", .ok ()⟩⟩).1 "store down" |>.mpr rfl
  · exact (Send_error_iff_persist_fails { mto := "gastown/Toast", subject := "S" }
      ⟨.error "store down", ⟨.ok true, .error "tmux broke", .ok ()⟩⟩).2.2.1 "store down" rfl
  · exact (Send_error_iff_persist_fails { mto := "gastown/Toast", subject := "S" }
      ⟨.ok (), ⟨.ok true, .error "tmux broke", .ok ()⟩⟩).2.1.mpr rfl
  · have h := (Send_error_iff_persist_fails { mto := "gastown/Toast", subject := "S" }
      ⟨.ok (), ⟨.ok true, .error "tmux broke", .ok ()⟩⟩).2.2.2.1 rfl
    rw [h]
    rfl

theorem infix_reminder_of_header (msg : Message) {l : List Char}
    (h : l <:+: (reminderHeader msg).data) : l <:+: (reminder msg).data := by
  unfold reminder
  by_cases hb : msg.body = ""
  · rw [if_neg (not_not_intro hb)]
    exact infix_cat_right reminderFooter h
  · rw [if_pos hb]
    exact infix_cat_right reminderFooter
      (infix_cat_right "\n" (infix_cat_right msg.body (infix_cat_right "\n" h)))

/-- C6: in queue mode (`notifyRecipient`) the single side effect is a
status-line notification carrying sender and subject, performed exactly
when the recipient's session id is non-empty and a session is active;
in interrupt mode (`interruptRecipient`) it is the multi-line reminder
block, injected raw (no submit), carrying the priority annotation
(non-empty exactly for high/urgent), sender, subject and body; in both
modes an empty session id or an absent/unqueryable session means no
effect and a nil error. -/
theorem delivery_modes_spec (msg : Message) (env : SessionEnv) :
    (addressToSessionID msg.mto ≠ "" → env.hasSession = .ok true →
      Router.notifyRecipient msg env =
        (env.displayResult, [.notified (addressToSessionID msg.mto) (notification msg)])) ∧
    (addressToSessionID msg.mto = "" → Router.notifyRecipient msg env = (.ok (), [])) ∧
    (env.hasSession ≠ .ok true → Router.notifyRecipient msg env = (.ok (), [])) ∧
    msg.mfrom.data <:+: (notification msg).data ∧
    msg.subject.data <:+: (notification msg).data ∧
    ('\n' ∉ msg.mfrom.data → '\n' ∉ msg.subject.data → '\n' ∉ (notification msg).data) ∧
    (addressToSessionID msg.mto ≠ "" → env.hasSession = .ok true →
      Router.interruptRecipient msg env =
        (env.sendKeysResult, [.injected (addressToSessionID msg.mto) (reminder msg)])) ∧
    (addressToSessionID msg.mto = "" → Router.interruptRecipient msg env = (.ok (), [])) ∧
    (env.hasSession ≠ .ok true → Router.interruptRecipient msg env = (.ok (), [])) ∧
    (priorityStr msg.priority).data <:+: (reminder msg).data ∧
    (priorityStr msg.priority ≠ "" ↔ msg.priority = .high ∨ msg.priority = .urgent) ∧
    msg.mfrom.data <:+: (reminder msg).data ∧
    msg.subject.data <:+: (reminder msg).data ∧
    msg.body.data <:+: (reminder msg).data ∧
    '\n' ∈ (reminder msg).data := by
  refine ⟨?_, ?_, ?_, ?_, ?_, ?_, ?_, ?_, ?_, ?_, ?_, ?_, ?_, ?_, ?_⟩
  · intro h1 h2
    simp [Router.notifyRecipient, h1, h2]
  · intro h
    simp [Router.notifyRecipient, h]
  · intro h
    by_cases hs : addressToSessionID msg.mto = ""
    · simp [Router.notifyRecipient, hs]
    · cases hh : env.hasSession with
      | error e => simp [Router.notifyRecipient, hs, hh]
      | ok b =>
        cases b
        · simp [Router.notifyRecipient, hs, hh]
        · exact absurd hh h
  · exact infix_cat_right msg.subject (infix_cat_right ": "
      (infix_cat_left "[MAIL] From " (List.infix_refl _)))
  · exact infix_cat_left ("[MAIL] From " ++ msg.mfrom ++ ": ") (List.infix_refl _)
  · intro hf hs hmem
    simp only [notification, String.data_append, List.mem_append] at hmem
    rcases hmem with ((h | h) | h) | h
    · exact absurd h (by decide)
    · exact hf h
    · exact absurd h (by decide)
    · exact hs h
  · intro h1 h2
    simp [Router.interruptRecipient, h1, h2]
  · intro h
    simp [Router.interruptRecipient, h]
  · intro h
    by_cases hs : addressToSessionID msg.mto = ""
    · simp [Router.interruptRecipient, hs]
    · cases hh : env.hasSession with
      | error e => simp [Router.interruptRecipient, hs, hh]
      | ok b =>
        cases b
        · simp [Router.interruptRecipient, hs, hh]
        · exact absurd hh h
  · exact infix_reminder_of_header msg (infix_cat_right "\n" (infix_cat_right msg.subject
      (infix_cat_right "\nSubject: " (infix_cat_right msg.mfrom (infix_cat_right " from "
        (infix_cat_left "\n<system-reminder>\n📬 NEW MAIL" (List.infix_refl _)))))))
  · cases msg.priority <;> simp [priorityStr]
  · exact infix_reminder_of_header msg (infix_cat_right "\n" (infix_cat_right msg.subject
      (infix_cat_right "\nSubject: "
        (infix_cat_left ("\n<system-reminder>\n📬 NEW MAIL" ++ priorityStr msg.priority ++ " from ")
          (List.infix_refl _)))))
  · exact infix_reminder_of_header msg (infix_cat_right "\n"
      (infix_cat_left ("\n<system-reminder>\n📬 NEW MAIL" ++ priorityStr msg.priority ++
        " from " ++ msg.mfrom ++ "\nSubject: ") (List.infix_refl _)))
  · by_cases hb : msg.body = ""
    · rw [hb]
      exact List.nil_infix
    · unfold reminder
      rw [if_pos hb]
      exact infix_cat_right reminderFooter (infix_cat_right "\n"
        (infix_cat_left (reminderHeader msg ++ "\n") (List.infix_refl _)))
  · have hA : '\n' ∈ ("\n<system-reminder>\n📬 NEW MAIL" : String).data := by decide
    have hinf : ("\n<system-reminder>\n📬 NEW MAIL" : String).data <:+: (reminder msg).data :=
      infix_reminder_of_header msg (infix_cat_right "\n" (infix_cat_right msg.subject
        (infix_cat_right "\nSubject: " (infix_cat_right msg.mfrom (infix_cat_right " from "
          (infix_cat_right (priorityStr msg.priority) (List.infix_refl _)))))))
    exact hinf.subset hA

/-- Witness for C6: a concrete urgent interrupt to `gastown/Toast` with
an active session injects the full reminder block; the same message
with no active session is silently skipped; queue mode notifies with
the `[MAIL]` line. -/
theorem delivery_modes_spec_witness :
    Router.notifyRecipient
        { mfrom := "mayor/", mto := "gastown/Toast", subject := "S", body := "B",
          priority := .urgent }
        ⟨.ok true, .ok (), .ok ()⟩ =
      (.ok (), [.notified "gt-gastown-Toast" "[MAIL] From mayor/: S"]) ∧
    Router.interruptRecipient
        { mfrom := "mayor/", mto := "gastown/Toast", subject := "S", body := "B",
          priority := .urgent }
        ⟨.ok true, .ok (), .ok ()⟩ =
      (.ok (), [.injected "gt-gastown-Toast"
        "\n<system-reminder>\n📬 NEW MAIL [URGENT] from mayor/\nSubject: S\n\nB\n\nRun 'gt mail inbox' to see your messages.\n</system-reminder>\n"]) ∧
    Router.interruptRecipient
        { mfrom := "mayor/", mto := "gastown/Toast", subject := "S", body := "B",
          priority := .urgent }
        ⟨.ok false, .ok (), .ok ()⟩ = (.ok (), []) := by
  refine ⟨?_, ?_, ?_⟩
  · have h := (delivery_modes_spec
      { mfrom := "mayor/", mto := "gastown/Toast", subject := "S", body := "B",
        priority := .urgent }
      ⟨.ok true, .ok (), .ok ()⟩).1 (by decide) rfl
    rw [h]
    rfl
  · have h := (delivery_modes_spec
      { mfrom := "mayor/", mto := "gastown/Toast", subject := "S", body := "B",
        priority := .urgent }
      ⟨.ok true, .ok (), .ok ()⟩).2.2.2.2.2.2.1 (by decide) rfl
    rw [h]
    rfl
  · exact (delivery_modes_spec
      { mfrom := "mayor/", mto := "gastown/Toast", subject := "S", body := "B",
        priority := .urgent }
      ⟨.ok false, .ok (), .ok ()⟩).2.2.2.2.2.2.2.2.1 (by simp)

/-- The inputs `runMailSend` works from after flag parsing: the
address argument, the detected sender, the flag values.  The parsers
`mail.ParsePriority` and `mail.ParseMessageType` are outside the shown
sources, so the parsed priority and parsed type are the inputs here. -/
structure SendFlags where
  mto : String
  mfrom : String
  subject : String
  body : String
  parsedPriority : Priority
  parsedType : MessageType
  replyTo : String
  notify : Bool
  interrupt : Bool

/-- Message construction in `runMailSend`: priority upgraded to high
under `--notify` when normal; delivery mode from `--interrupt`; with
`--reply-to` the type upgraded to reply when it is notification and the
thread id taken from the original message looked up in the sender's own
mailbox (`lookup` is that mailbox's `Get`; the mailbox itself is always
obtained without error); a fresh thread id generated from `freshBytes`
whenever the thread id is still empty. -/
def buildMessage (f : SendFlags) (lookup : String → Except String Message)
    (freshBytes : List (Fin 256)) : Message :=
  let priority := if f.notify ∧ f.parsedPriority = .normal then Priority.high
    else f.parsedPriority
  let delivery := if f.interrupt then Delivery.interrupt else Delivery.queue
  let withReply :=
    if f.replyTo ≠ "" then
      let t := if f.parsedType = .notification then MessageType.reply else f.parsedType
      let tid :=
        match lookup f.replyTo with
        | .ok original => original.threadID
        | .error _ => ""
      (t, f.replyTo, tid)
    else (f.parsedType, "", "")
  let threadID := if withReply.2.2 = "" then generateThreadID freshBytes else withReply.2.2
  { mfrom := f.mfrom, mto := f.mto, subject := f.subject, body := f.body,
    priority := priority, mtype := withReply.1, delivery := delivery,
    threadID := threadID, replyTo := withReply.2.1 }

/-- `runMailSend` after flag parsing: build the message, then send it
through the Router. -/
def runMailSend (f : SendFlags) (lookup : String → Except String Message)
    (freshBytes : List (Fin 256)) (env : SendEnv) : Except String Unit × List Effect :=
  Router.Send (buildMessage f lookup freshBytes) env

/-- C10: with `--notify` set and the parsed priority normal, the built
message's priority is silently upgraded to high; with any other parsed
priority the notify flag leaves the priority unchanged (and without the
flag it is always unchanged). -/
theorem notify_priority_upgrade (f : SendFlags)
    (lookup : String → Except String Message) (bs : List (Fin 256)) :
    (f.notify = true → f.parsedPriority = .normal →
      (buildMessage f lookup bs).priority = .high) ∧
    (f.parsedPriority ≠ .normal →
      (buildMessage f lookup bs).priority = f.parsedPriority) ∧
    (f.notify = false →
      (buildMessage f lookup bs).priority = f.parsedPriority) := by
  refine ⟨?_, ?_, ?_⟩
  · intro hn hp
    simp [buildMessage, hn, hp]
  · intro hp
    simp [buildMessage, hp]
  · intro hn
    simp [buildMessage, hn]

/-- Witness for C10: urgent priority survives `--notify`; normal
priority is upgraded. -/
theorem notify_priority_upgrade_witness :
    (buildMessage
      { mto := "gastown/Toast", mfrom := "mayor/", subject := "S", body := "",
        parsedPriority := .urgent, parsedType := .notification, replyTo := "",
        notify := true, interrupt := false }
      (fun _ => .error "no mailbox") []).priority = .urgent ∧
    (buildMessage
      { mto := "gastown/Toast", mfrom := "mayor/", subject := "S", body := "",
        parsedPriority := .normal, parsedType := .notification, replyTo := "",
        notify := true, interrupt := false }
      (fun _ => .error "no mailbox") []).priority = .high := by
  constructor
  · exact (notify_priority_upgrade
      { mto := "gastown/Toast", mfrom := "mayor/", subject := "S", body := "",
        parsedPriority := .urgent, parsedType := .notification, replyTo := "",
        notify := true, interrupt := false }
      (fun _ => .error "no mailbox") []).2.1 (by decide)
  · exact (notify_priority_upgrade
      { mto := "gastown/Toast", mfrom := "mayor/", subject := "S", body := "",
        parsedPriority := .normal, parsedType := .notification, replyTo := "",
        notify := true, interrupt := false }
      (fun _ => .error "no mailbox") []).1 rfl rfl

/-- C3 counterexample: the command reads only the flag's parsed value,
so an explicitly supplied `--type notification` is indistinguishable
from the default; with `--reply-to` set the built message's type is
reply, not the (explicitly supplied) notification the claim promises. -/
theorem replyTo_explicit_notification_upgraded :
    (buildMessage
      { mto := "mayor/", mfrom := "gastown/Toast", subject := "Re", body := "",
        parsedPriority := .normal, parsedType := .notification, replyTo := "msg-1",
        notify := false, interrupt := false }
      (fun _ => .error "not found") [0, 0, 0, 0, 0, 0]).mtype = .reply ∧
    MessageType.reply ≠ .notification := by
  constructor
  · rfl
  · decide

/-- C3 amended: with `--reply-to` set, a parsed type of notification —
whether defaulted or explicitly supplied, the two being identical to
the command — is upgraded to reply; any other parsed type is preserved
unchanged; without `--reply-to` the parsed type is always preserved. -/
theorem replyTo_type_upgrade (f : SendFlags)
    (lookup : String → Except String Message) (bs : List (Fin 256)) :
    (f.replyTo ≠ "" → f.parsedType = .notification →
      (buildMessage f lookup bs).mtype = .reply) ∧
    (f.replyTo ≠ "" → f.parsedType ≠ .notification →
      (buildMessage f lookup bs).mtype = f.parsedType) ∧
    (f.replyTo = "" → (buildMessage f lookup bs).mtype = f.parsedType) := by
  refine ⟨?_, ?_, ?_⟩
  · intro hr ht
    simp [buildMessage, hr, ht]
  · intro hr ht
    simp [buildMessage, hr, ht]
  · intro hr
    simp [buildMessage, hr]

/-- Witness for C3 (amended) at concrete sends: notification becomes
reply; an explicit task type is preserved. -/
theorem replyTo_type_upgrade_witness :
    (buildMessage
      { mto := "mayor/", mfrom := "gastown/Toast", subject := "Re", body := "",
        parsedPriority := .normal, parsedType := .notification, replyTo := "msg-1",
        notify := false, interrupt := false }
      (fun _ => .error "not found") [0, 0, 0, 0, 0, 0]).mtype = .reply ∧
    (buildMessage
      { mto := "mayor/", mfrom := "gastown/Toast", subject := "Re", body := "",
        parsedPriority := .normal, parsedType := .task, replyTo := "msg-1",
        notify := false, interrupt := false }
      (fun _ => .error "not found") [0, 0, 0, 0, 0, 0]).mtype = .task := by
  constructor
  · exact (replyTo_type_upgrade
      { mto := "mayor/", mfrom := "gastown/Toast", subject := "Re", body := "",
        parsedPriority := .normal, parsedType := .notification, replyTo := "msg-1",
        notify := false, interrupt := false }
      (fun _ => .error "not found") [0, 0, 0, 0, 0, 0]).1 (by decide) rfl
  · exact (replyTo_type_upgrade
      { mto := "mayor/", mfrom := "gastown/Toast", subject := "Re", body := "",
        parsedPriority := .normal, parsedType := .task, replyTo := "msg-1",
        notify := false, interrupt := false }
      (fun _ => .error "not found") [0, 0, 0, 0, 0, 0]).2.1 (by decide) (by decide)

/-- C2 counterexample: an original message that resolves from the
sender's mailbox but whose stored threadId is empty is not inherited —
the sent message receives a freshly generated thread id, which differs
from the original's (empty) one. -/
theorem reply_thread_inherit_counterexample :
    (buildMessage
      { mto := "mayor/", mfrom := "gastown/Toast", subject := "Re", body := "",
        parsedPriority := .normal, parsedType := .notification, replyTo := "msg-1",
        notify := false, interrupt := false }
      (fun _ => .ok { threadID := "" }) [0, 0, 0, 0, 0, 0]).threadID =
        "thread-000000000000" ∧
    ({ threadID := "" } : Message).threadID = "" ∧
    ("thread-000000000000" : String) ≠ "" := by
  exact ⟨rfl, rfl, by decide⟩

/-- C2 amended: with `--reply-to` set, if the original resolves from
the sender's own mailbox and its threadId is non-empty, that threadId
is inherited; if the lookup fails, or the inherited id is empty, the
message receives the freshly generated non-empty thread id; and the
send's outcome never depends on the lookup, so a failed lookup cannot
fail the send. -/
theorem reply_thread_inheritance (f : SendFlags)
    (lookup : String → Except String Message) (bs : List (Fin 256)) (env : SendEnv) :
    (∀ original, f.replyTo ≠ "" → lookup f.replyTo = .ok original →
      original.threadID ≠ "" →
      (buildMessage f lookup bs).threadID = original.threadID) ∧
    (∀ e, f.replyTo ≠ "" → lookup f.replyTo = .error e →
      (buildMessage f lookup bs).threadID = generateThreadID bs) ∧
    (∀ original, f.replyTo ≠ "" → lookup f.replyTo = .ok original →
      original.threadID = "" →
      (buildMessage f lookup bs).threadID = generateThreadID bs) ∧
    generateThreadID bs ≠ "" ∧
    (∀ lookup2 : String → Except String Message,
      (runMailSend f lookup bs env).1 = (runMailSend f lookup2 bs env).1) := by
  refine ⟨?_, ?_, ?_, ?_, ?_⟩
  · intro original hr hl ht
    simp [buildMessage, hr, hl, ht]
  · intro e hr hl
    simp [buildMessage, hr, hl]
  · intro original hr hl ht
    simp [buildMessage, hr, hl, ht]
  · intro he
    have hd := congrArg String.data he
    simp [generateThreadID] at hd
  · intro lookup2
    cases h : env.persistResult <;> simp [runMailSend, Router.Send, h]

/-- Witness for C2 (amended): a resolvable original with thread id
`thread-abc` is inherited; a failed lookup falls back to the generated
id, which is non-empty. -/
theorem reply_thread_inheritance_witness :
    (buildMessage
      { mto := "mayor/", mfrom := "gastown/Toast", subject := "Re", body := "",
        parsedPriority := .normal, parsedType := .notification, replyTo := "msg-1",
        notify := false, interrupt := false }
      (fun _ => .ok { threadID := "thread-abc" }) [0, 0, 0, 0, 0, 0]).threadID =
        "thread-abc" ∧
    (buildMessage
      { mto := "mayor/", mfrom := "gastown/Toast", subject := "Re", body := "",
        parsedPriority := .normal, parsedType := .notification, replyTo := "msg-1",
        notify := false, interrupt := false }
      (fun _ => .error "not found") [0, 0, 0, 0, 0, 0]).threadID =
        generateThreadID [0, 0, 0, 0, 0, 0] ∧
    generateThreadID [0, 0, 0, 0, 0, 0] ≠ "" := by
  refine ⟨?_, ?_, ?_⟩
  · exact (reply_thread_inheritance
      { mto := "mayor/", mfrom := "gastown/Toast", subject := "Re", body := "",
        parsedPriority := .normal, parsedType := .notification, replyTo := "msg-1",
        notify := false, interrupt := false }
      (fun _ => .ok { threadID := "thread-abc" }) [0, 0, 0, 0, 0, 0]
      ⟨.ok (), ⟨.ok true, .ok (), .ok ()⟩⟩).1 { threadID := "thread-abc" }
      (by decide) rfl (by decide)
  · exact (reply_thread_inheritance
      { mto := "mayor/", mfrom := "gastown/Toast", subject := "Re", body := "",
        parsedPriority := .normal, parsedType := .notification, replyTo := "msg-1",
        notify := false, interrupt := false }
      (fun _ => .error "not found") [0, 0, 0, 0, 0, 0]
      ⟨.ok (), ⟨.ok true, .ok (), .ok ()⟩⟩).2.1 "not found" (by decide) rfl
  · exact (reply_thread_inheritance
      { mto := "mayor/", mfrom := "gastown/Toast", subject := "Re", body := "",
        parsedPriority := .normal, parsedType := .notification, replyTo := "msg-1",
        notify := false, interrupt := false }
      (fun _ => .error "not found") [0, 0, 0, 0, 0, 0]
      ⟨.ok (), ⟨.ok true, .ok (), .ok ()⟩⟩).2.2.2.1

/-- A mailbox as `NewMailboxFromAddress` builds it: scoped to one
address and the working directory of the beads store (that constructor
lives outside the shown sources and is modelled as recording its
arguments). -/
structure Mailbox where
  address : String
  workDir : String
deriving DecidableEq

/-- `Router.GetMailbox`: in the source it returns
`NewMailboxFromAddress(address, r.workDir), nil` — a mailbox and a nil
error, for every address. -/
def Router.GetMailbox (workDir address : String) : Except String Mailbox :=
  .ok ⟨address, workDir⟩

/-- C9: `GetMailbox` succeeds for every address string — in particular
for every address that resolves to a durable identity — and never
returns an error, so an AddressParseError is reported only when (never
here) no durable identity can be formed. -/
theorem GetMailbox_total (workDir address : String) :
    Router.GetMailbox workDir address = .ok ⟨address, workDir⟩ ∧
    (∀ e : String, Router.GetMailbox workDir address ≠ .error e) := by
  exact ⟨rfl, fun e h => Except.noConfusion h⟩

/-- Modelled from the spec: the session-registry component (Go package
`session`) is not among the shown sources — only its test file is.  A
registry holds prefix ↔ canonical-rig-name pairs; `Register` adds or
overwrites one pair. -/
structure PrefixRegistry where
  entries : List (String × String)

/-- Modelled from the spec: `NewPrefixRegistry` creates an empty
registry. -/
def NewPrefixRegistry : PrefixRegistry := ⟨[]⟩

/-- Modelled from the spec: `Register(prefix, rigName)` adds/overwrites
one prefix↔name pair in the registry. -/
def PrefixRegistry.register (r : PrefixRegistry) (pfx rigName : String) : PrefixRegistry :=
  ⟨(pfx, rigName) :: r.entries⟩

/-- The leading prefix component of a session name: the characters
before the first `-`. -/
def leadingComponent (name : String) : String :=
  String.mk (name.data.takeWhile (fun c => c ≠ '-'))

/-- Modelled from the spec: `IsKnownSession(name)` — true
unconditionally when `name` starts with the reserved management prefix
`hq-`; otherwise true iff `name`'s leading prefix component matches a
prefix registered for some rig. -/
def IsKnownSession (r : PrefixRegistry) (name : String) : Bool :=
  if hasPfx "hq-".data name.data then true
  else r.entries.any (fun e => e.1 == leadingComponent name)

/-- C5: `IsKnownSession` is true unconditionally for `hq-`-prefixed
names — for any registry, including the empty one; otherwise it is true
iff the name's leading prefix component is registered for some rig, and
false when no registered prefix matches. -/
theorem isKnownSession_spec (r : PrefixRegistry) (name : String) :
    (hasPfx "hq-".data name.data = true → IsKnownSession r name = true) ∧
    (hasPfx "hq-".data name.data = true →
      IsKnownSession NewPrefixRegistry name = true) ∧
    (hasPfx "hq-".data name.data = false →
      (IsKnownSession r name = true ↔
        ∃ p ∈ r.entries, p.1 = leadingComponent name)) := by
  refine ⟨?_, ?_, ?_⟩
  · intro h
    simp [IsKnownSession, h]
  · intro h
    simp [IsKnownSession, h]
  · intro h
    simp [IsKnownSession, h, List.any_eq_true]

/-- Witness for C5 mirroring the repository's test: with only `xy`
registered, `hq-mayor` is known (also on the empty registry),
`xy-worker` is known via the prefix, `zz-worker` is not. -/
theorem isKnownSession_spec_witness :
    IsKnownSession (NewPrefixRegistry.register "xy" "xrig") "hq-mayor" = true ∧
    IsKnownSession NewPrefixRegistry "hq-mayor" = true ∧
    IsKnownSession (NewPrefixRegistry.register "xy" "xrig") "xy-worker" = true ∧
    IsKnownSession (NewPrefixRegistry.register "xy" "xrig") "zz-worker" = false := by
  refine ⟨?_, ?_, ?_, ?_⟩
  · exact (isKnownSession_spec (NewPrefixRegistry.register "xy" "xrig") "hq-mayor").1
      (by decide)
  · exact (isKnownSession_spec NewPrefixRegistry "hq-mayor").1 (by decide)
  · exact ((isKnownSession_spec (NewPrefixRegistry.register "xy" "xrig") "xy-worker").2.2
      (by decide)).mpr ⟨("xy", "xrig"), by decide, by decide⟩
  · have h := (isKnownSession_spec (NewPrefixRegistry.register "xy" "xrig") "zz-worker").2.2
      (by decide)
    cases hval : IsKnownSession (NewPrefixRegistry.register "xy" "xrig") "zz-worker"
    · rfl
    · obtain ⟨p, hp, he⟩ := h.mp hval
      simp [NewPrefixRegistry, PrefixRegistry.register] at hp
      rw [hp] at he
      exact absurd he (by decide)

/-- Terminal outcome of `runMailWait`, matching the process exit codes:
mail arrived (0), timeout (1), error (2). -/
inductive WaitOutcome
  | mailArrived (unread : Nat)
  | timedOut
  | errored (e : String)
deriving DecidableEq

/-- Observable events of the wait loop: a `Count()` query and a sleep
of the fixed poll interval. -/
inductive WaitEvent
  | queried
  | slept (seconds : Nat)
deriving DecidableEq

/-- The fixed poll interval of `runMailWait`, in seconds. -/
def pollIntervalSeconds : Nat := 5

/-- One iteration of `runMailWait`'s loop, from that iteration's
`Count()` outcome `(total, unread)`, the optional absolute deadline,
and the current time: a count error is terminal Errored; unread > 0 is
terminal MailArrived; a set, strictly passed deadline (Go
`time.Now().After(deadline)`) is terminal TimedOut; otherwise the loop
continues. -/
def waitStep (count : Except String (Nat × Nat)) (deadline : Option Nat) (now : Nat) :
    Option WaitOutcome :=
  match count with
  | .error e => some (.errored e)
  | .ok (_, unread) =>
    if unread > 0 then some (.mailArrived unread)
    else
      match deadline with
      | some d => if now > d then some WaitOutcome.timedOut else none
      | none => none

/-- The wait loop over a finite trace of oracle inputs; each item is
one iteration's `Count()` outcome and current time.  Returns the events
performed in order and the terminal outcome (`none` when the trace ran
out while still waiting).  A terminal iteration records only its query;
a non-terminal one records its query and a poll-interval sleep. -/
def runWait (deadline : Option Nat) :
    List (Except String (Nat × Nat) × Nat) → List WaitEvent × Option WaitOutcome
  | [] => ([], none)
  | (count, now) :: rest =>
    match waitStep count deadline now with
    | some outcome => ([.queried], some outcome)
    | none =>
      let r := runWait deadline rest
      (.queried :: .slept pollIntervalSeconds :: r.1, r.2)

/-- C7: each iteration queries `Count()` first; a failure terminates
immediately in Errored with no retry and no sleep, for any remaining
trace; unread > 0 terminates in MailArrived; a set, passed deadline
terminates in TimedOut without sleeping past the check; otherwise the
loop sleeps the 5-second interval and repeats; and the three terminal
outcomes are mutually distinguishable. -/
theorem wait_poller_spec (deadline : Option Nat) (now : Nat) (e : String)
    (total unread : Nat) (rest : List (Except String (Nat × Nat) × Nat)) :
    runWait deadline ((.error e, now) :: rest) = ([.queried], some (.errored e)) ∧
    (unread > 0 → runWait deadline ((.ok (total, unread), now) :: rest) =
      ([.queried], some (.mailArrived unread))) ∧
    (∀ d, unread = 0 → deadline = some d → now > d →
      runWait deadline ((.ok (total, unread), now) :: rest) =
        ([.queried], some WaitOutcome.timedOut)) ∧
    (∀ d, unread = 0 → deadline = some d → ¬now > d →
      runWait deadline ((.ok (total, unread), now) :: rest) =
        (.queried :: .slept pollIntervalSeconds :: (runWait deadline rest).1,
          (runWait deadline rest).2)) ∧
    (unread = 0 → deadline = none →
      runWait deadline ((.ok (total, unread), now) :: rest) =
        (.queried :: .slept pollIntervalSeconds :: (runWait deadline rest).1,
          (runWait deadline rest).2)) ∧
    (∀ n e2, WaitOutcome.mailArrived n ≠ WaitOutcome.timedOut ∧
      WaitOutcome.mailArrived n ≠ WaitOutcome.errored e2 ∧
      WaitOutcome.timedOut ≠ WaitOutcome.errored e2) := by
  refine ⟨?_, ?_, ?_, ?_, ?_, ?_⟩
  · simp [runWait, waitStep]
  · intro h
    simp [runWait, waitStep, h]
  · intro d h0 hd hnow
    simp [runWait, waitStep, h0, hd, hnow]
  · intro d h0 hd hnow
    simp [runWait, waitStep, h0, hd, hnow]
  · intro h0 hd
    simp [runWait, waitStep, h0, hd]
  · intro n e2
    refine ⟨?_, ?_, ?_⟩ <;> intro h <;> cases h

/-- Witness for C7 on concrete traces: an immediate count error, mail
on the first poll, an already-passed deadline, and one sleep followed
by arrival. -/
theorem wait_poller_spec_witness :
    runWait none [(.error "db down", 0)] = ([.queried], some (.errored "db down")) ∧
    runWait (some 10) [(.ok (1, 1), 0)] = ([.queried], some (.mailArrived 1)) ∧
    runWait (some 10) [(.ok (3, 0), 11)] = ([.queried], some WaitOutcome.timedOut) ∧
    runWait (some 10) [(.ok (0, 0), 5), (.ok (1, 1), 6)] =
      ([.queried, .slept 5, .queried], some (.mailArrived 1)) := by
  refine ⟨?_, ?_, ?_, ?_⟩
  · exact (wait_poller_spec none 0 "db down" 0 0 []).1
  · exact (wait_poller_spec (some 10) 0 "" 1 1 []).2.1 (by decide)
  · exact (wait_poller_spec (some 10) 11 "" 3 0 []).2.2.1 10 rfl rfl (by decide)
  · have h := (wait_poller_spec (some 10) 5 "" 0 0 [(.ok (1, 1), 6)]).2.2.2.1 10 rfl rfl
      (by decide)
    rw [h]
    rfl

end Gastown
